import Mathlib

/-!
Verification of the matcher-op core of mongo-c-driver
(src/mongoc/mongoc-matcher-op.c) against its natural-language
specification.

The predicate tree, its evaluator and its serializer are shallowly
embedded below, translated case by case from the C source.  The external
document codec (libbson) is out of scope of the source file; its two
lookup entry points named by the source, bson_iter_init_find and
bson_iter_find_descendant, are modelled from the specification of the
document accessor (spec section 6): an ordered list of key/value pairs,
exact top-level key lookup, and dotted-path descent into nested
documents.  IEEE doubles are modelled exactly over the rationals; the
claims under study only involve values on which the two coincide.
-/

/-- BSON type tags, after bson_type_t.  Only the tags the matcher
distinguishes are modelled; every other tag is collapsed into other. -/
inductive BsonType where
  | double
  | utf8
  | document
  | undefined
  | bool
  | null
  | int32
  | int64
  | other
  deriving DecidableEq

/-- A BSON value as seen through a positioned iterator.  Doubles are
modelled exactly over the rationals; int32/int64 payloads are modelled
as integers (the matcher only compares them, never overflows them). -/
inductive BsonValue where
  | double (q : ℚ)
  | utf8 (s : String)
  | document (elems : List (String × BsonValue))
  | bool (b : Bool)
  | null
  | undefined
  | int32 (n : Int)
  | int64 (n : Int)
  | other

/-- bson_iter_type: the type tag of the value under the iterator. -/
def bson_iter_type : BsonValue → BsonType
  | .double _ => .double
  | .utf8 _ => .utf8
  | .document _ => .document
  | .bool _ => .bool
  | .null => .null
  | .undefined => .undefined
  | .int32 _ => .int32
  | .int64 _ => .int64
  | .other => .other

/-- Modelled from the spec: the external document accessor, top-level
entry (libbson bson_iter_init followed by bson_iter_find, as called at
mongoc-matcher-op.c line 880).  Walks the top-level elements in order
and returns the first whose key equals the requested key exactly; no
dotted descent happens here. -/
def bson_iter_init_find (bson : List (String × BsonValue)) (key : String) :
    Option BsonValue :=
  match bson with
  | [] => none
  | (k, v) :: rest => if k = key then some v else bson_iter_init_find rest key

/-- Split a character list at every dot, after the strchr walk of
libbson bson_iter_find_descendant. -/
def splitOnDot : List Char → List (List Char)
  | [] => [[]]
  | c :: rest =>
      let r := splitOnDot rest
      if c = '.' then [] :: r
      else
        match r with
        | [] => [[c]]
        | h :: t => (c :: h) :: t

/-- Modelled from the spec: the external document accessor, dotted
entry (libbson bson_iter_find_descendant, as called at
mongoc-matcher-op.c lines 303 and 338): resolve each path component at
the current level by exact key match, descending into nested documents
between components; report absence otherwise.  Array indexing is not
modelled (no claim under study involves arrays). -/
def find_descendant_core (bson : List (String × BsonValue)) :
    List (List Char) → Option BsonValue
  | [] => none
  | [k] => bson_iter_init_find bson (String.mk k)
  | k :: rest =>
      match bson_iter_init_find bson (String.mk k) with
      | some (.document sub) => find_descendant_core sub rest
      | _ => none

/-- Modelled from the spec: bson_iter_find_descendant on a dotted key
given as a string. -/
def bson_iter_find_descendant (bson : List (String × BsonValue))
    (dotkey : String) : Option BsonValue :=
  find_descendant_core bson (splitOnDot dotkey.data)

/-- Compare opcodes, after MONGOC_MATCHER_OPCODE_EQ .. NIN. -/
inductive CompareOpcode where
  | EQ
  | GT
  | GTE
  | IN
  | LT
  | LTE
  | NE
  | NIN
  deriving DecidableEq

/-- Logical opcodes, after MONGOC_MATCHER_OPCODE_OR, AND, NOR. -/
inductive LogicalOpcode where
  | OR
  | AND
  | NOR
  deriving DecidableEq

/-- The matcher node tree, after the mongoc_matcher_op_t tagged union.
A compare node snapshots its operand value; a logical node owns a left
child and an optional right child (the builder asserts only the left);
the not node carries a path used only by the serializer. -/
inductive MongocMatcherOp where
  | compare (opcode : CompareOpcode) (path : String) (iterValue : BsonValue)
  | logical (opcode : LogicalOpcode) (left : MongocMatcherOp)
      (right : Option MongocMatcherOp)
  | not_ (path : String) (child : MongocMatcherOp)
  | exists_ (path : String) (expected : Bool)
  | type (path : String) (expected : BsonType)

/-- _mongoc_matcher_op_eq_match (mongoc-matcher-op.c lines 420 to 486):
the switch over _TYPE_CODE(left, right) where left is the node operand
and right is the document field.  _EQ_COMPARE(t1, t2) is the native
equality of the two payloads after the usual C arithmetic conversions;
those conversions are rendered here as casts into the rationals or the
integers.  The UTF8 case compares byte length then byte content, which
is exactly string equality.  Every pairing outside the switch falls to
the default branch and is not-equal. -/
def _mongoc_matcher_op_eq_match (l r : BsonValue) : Bool :=
  match l, r with
  | .double a, .double b => decide (a = b)
  | .double a, .bool b => decide (a = (if b then (1 : ℚ) else 0))
  | .double a, .int32 b => decide (a = (b : ℚ))
  | .double a, .int64 b => decide (a = (b : ℚ))
  | .utf8 s, .utf8 t => decide (s = t)
  | .int32 a, .double b => decide ((a : ℚ) = b)
  | .int32 a, .bool b => decide (a = (if b then (1 : Int) else 0))
  | .int32 a, .int32 b => decide (a = b)
  | .int32 a, .int64 b => decide (a = b)
  | .int64 a, .double b => decide ((a : ℚ) = b)
  | .int64 a, .bool b => decide (a = (if b then (1 : Int) else 0))
  | .int64 a, .int32 b => decide (a = b)
  | .int64 a, .int64 b => decide (a = b)
  | .null, .null => true
  | .null, .undefined => true
  | _, _ => false

/-- _mongoc_matcher_op_gt_match (lines 508 to 560): the same numeric
switch restricted to double/int32/int64 operands against
double/bool/int32/int64 fields.  _GT_COMPARE(t1, t2) expands to
operand <= field (line 385; the macro names are inverted relative to
the comparison they perform, since the spec value sits on the left).
The default branch logs a warning and returns false. -/
def _mongoc_matcher_op_gt_match (l r : BsonValue) : Bool :=
  match l, r with
  | .double a, .double b => decide (a ≤ b)
  | .double a, .bool b => decide (a ≤ (if b then (1 : ℚ) else 0))
  | .double a, .int32 b => decide (a ≤ (b : ℚ))
  | .double a, .int64 b => decide (a ≤ (b : ℚ))
  | .int32 a, .double b => decide ((a : ℚ) ≤ b)
  | .int32 a, .bool b => decide (a ≤ (if b then (1 : Int) else 0))
  | .int32 a, .int32 b => decide (a ≤ b)
  | .int32 a, .int64 b => decide (a ≤ b)
  | .int64 a, .double b => decide ((a : ℚ) ≤ b)
  | .int64 a, .bool b => decide (a ≤ (if b then (1 : Int) else 0))
  | .int64 a, .int32 b => decide (a ≤ b)
  | .int64 a, .int64 b => decide (a ≤ b)
  | _, _ => false

/-- _mongoc_matcher_op_gte_match (lines 579 to 631): same switch with
_GTE_COMPARE, which expands to operand < field (line 386). -/
def _mongoc_matcher_op_gte_match (l r : BsonValue) : Bool :=
  match l, r with
  | .double a, .double b => decide (a < b)
  | .double a, .bool b => decide (a < (if b then (1 : ℚ) else 0))
  | .double a, .int32 b => decide (a < (b : ℚ))
  | .double a, .int64 b => decide (a < (b : ℚ))
  | .int32 a, .double b => decide ((a : ℚ) < b)
  | .int32 a, .bool b => decide (a < (if b then (1 : Int) else 0))
  | .int32 a, .int32 b => decide (a < b)
  | .int32 a, .int64 b => decide (a < b)
  | .int64 a, .double b => decide ((a : ℚ) < b)
  | .int64 a, .bool b => decide (a < (if b then (1 : Int) else 0))
  | .int64 a, .int32 b => decide (a < b)
  | .int64 a, .int64 b => decide (a < b)
  | _, _ => false

/-- _mongoc_matcher_op_lt_match (lines 679 to 731): same switch with
_LT_COMPARE, which expands to operand >= field (line 387). -/
def _mongoc_matcher_op_lt_match (l r : BsonValue) : Bool :=
  match l, r with
  | .double a, .double b => decide (b ≤ a)
  | .double a, .bool b => decide ((if b then (1 : ℚ) else 0) ≤ a)
  | .double a, .int32 b => decide ((b : ℚ) ≤ a)
  | .double a, .int64 b => decide ((b : ℚ) ≤ a)
  | .int32 a, .double b => decide (b ≤ (a : ℚ))
  | .int32 a, .bool b => decide ((if b then (1 : Int) else 0) ≤ a)
  | .int32 a, .int32 b => decide (b ≤ a)
  | .int32 a, .int64 b => decide (b ≤ a)
  | .int64 a, .double b => decide (b ≤ (a : ℚ))
  | .int64 a, .bool b => decide ((if b then (1 : Int) else 0) ≤ a)
  | .int64 a, .int32 b => decide (b ≤ a)
  | .int64 a, .int64 b => decide (b ≤ a)
  | _, _ => false

/-- _mongoc_matcher_op_lte_match (lines 750 to 802): same switch with
_LTE_COMPARE, which expands to operand > field (line 388). -/
def _mongoc_matcher_op_lte_match (l r : BsonValue) : Bool :=
  match l, r with
  | .double a, .double b => decide (b < a)
  | .double a, .bool b => decide ((if b then (1 : ℚ) else 0) < a)
  | .double a, .int32 b => decide ((b : ℚ) < a)
  | .double a, .int64 b => decide ((b : ℚ) < a)
  | .int32 a, .double b => decide (b < (a : ℚ))
  | .int32 a, .bool b => decide ((if b then (1 : Int) else 0) < a)
  | .int32 a, .int32 b => decide (b < a)
  | .int32 a, .int64 b => decide (b < a)
  | .int64 a, .double b => decide (b < (a : ℚ))
  | .int64 a, .bool b => decide ((if b then (1 : Int) else 0) < a)
  | .int64 a, .int32 b => decide (b < a)
  | .int64 a, .int64 b => decide (b < a)
  | _, _ => false

/-- _mongoc_matcher_op_in_match (lines 654 to 660): unimplemented stub;
logs a warning and reports no match for every operand and field. -/
def _mongoc_matcher_op_in_match (_l _r : BsonValue) : Bool :=
  false

/-- _mongoc_matcher_op_ne_match (lines 822 to 827): negation of the
equality match on the same operand and field. -/
def _mongoc_matcher_op_ne_match (l r : BsonValue) : Bool :=
  ! _mongoc_matcher_op_eq_match l r

/-- _mongoc_matcher_op_nin_match (lines 846 to 851): negation of the in
match on the same operand and field. -/
def _mongoc_matcher_op_nin_match (l r : BsonValue) : Bool :=
  ! _mongoc_matcher_op_in_match l r

/-- _mongoc_matcher_op_compare_match (lines 871 to 907): look the path
up with bson_iter_init_find; when the path is absent return false
before dispatching on the opcode, whatever the opcode is; otherwise
dispatch to the per-opcode comparison with the node operand on the left
and the document field on the right. -/
def _mongoc_matcher_op_compare_match (opcode : CompareOpcode) (path : String)
    (operand : BsonValue) (bson : List (String × BsonValue)) : Bool :=
  match bson_iter_init_find bson path with
  | none => false
  | some fieldValue =>
      match opcode with
      | .EQ => _mongoc_matcher_op_eq_match operand fieldValue
      | .GT => _mongoc_matcher_op_gt_match operand fieldValue
      | .GTE => _mongoc_matcher_op_gte_match operand fieldValue
      | .IN => _mongoc_matcher_op_in_match operand fieldValue
      | .LT => _mongoc_matcher_op_lt_match operand fieldValue
      | .LTE => _mongoc_matcher_op_lte_match operand fieldValue
      | .NE => _mongoc_matcher_op_ne_match operand fieldValue
      | .NIN => _mongoc_matcher_op_nin_match operand fieldValue

/-- _mongoc_matcher_op_exists_match (lines 292 to 307): resolve the
dotted path; the result is found compared against the expected flag. -/
def _mongoc_matcher_op_exists_match (path : String) (expected : Bool)
    (bson : List (String × BsonValue)) : Bool :=
  (bson_iter_find_descendant bson path).isSome == expected

/-- _mongoc_matcher_op_type_match (lines 327 to 343): resolve the
dotted path; absent means false, present means comparing the type tag
of the resolved value against the expected tag. -/
def _mongoc_matcher_op_type_match (path : String) (expected : BsonType)
    (bson : List (String × BsonValue)) : Bool :=
  match bson_iter_find_descendant bson path with
  | some v => decide (bson_iter_type v = expected)
  | none => false

/-- _mongoc_matcher_op_match (lines 969 to 1001) together with
_mongoc_matcher_op_logical_match (lines 927 to 950) and
_mongoc_matcher_op_not_match (lines 364 to 372).  The result is an
Option Bool: some b is a normal boolean verdict, none models the fatal
BSON_ASSERT(op) failure (a null dereference in a release build) that
_mongoc_matcher_op_match runs into when it is handed a NULL child.
The logical arms translate the short-circuiting C expressions
left OR right, left AND right, NOT (left OR right) literally: the right
operand _mongoc_matcher_op_match(logical->right, bson) is only reached
when the left value does not already decide the result, and reaching it
with an absent right child is the modelled crash. -/
def _mongoc_matcher_op_match :
    MongocMatcherOp → List (String × BsonValue) → Option Bool
  | .compare opcode path v, bson =>
      some (_mongoc_matcher_op_compare_match opcode path v bson)
  | .logical op left none, bson =>
      (match _mongoc_matcher_op_match left bson, op with
       | none, _ => none
       | some l, .OR => if l then some true else none
       | some l, .AND => if l then none else some false
       | some l, .NOR => if l then some false else none)
  | .logical op left (some r), bson =>
      (match _mongoc_matcher_op_match left bson, op with
       | none, _ => none
       | some l, .OR =>
           if l then some true else _mongoc_matcher_op_match r bson
       | some l, .AND =>
           if l then _mongoc_matcher_op_match r bson else some false
       | some l, .NOR =>
           if l then some false
           else Option.map (fun b => ! b) (_mongoc_matcher_op_match r bson))
  | .not_ _ child, bson =>
      Option.map (fun b => ! b) (_mongoc_matcher_op_match child bson)
  | .exists_ path e, bson =>
      some (_mongoc_matcher_op_exists_match path e bson)
  | .type path t, bson =>
      some (_mongoc_matcher_op_type_match path t bson)

/-- Unfolding lemma: dispatch of a compare node (lines 977 to 985). -/
theorem match_compare_unfold (opcode : CompareOpcode) (p : String)
    (v : BsonValue) (bson : List (String × BsonValue)) :
    _mongoc_matcher_op_match (.compare opcode p v) bson
      = some (_mongoc_matcher_op_compare_match opcode p v bson) :=
  rfl

/-- Unfolding lemma: dispatch of a not node (lines 990 to 991). -/
theorem match_not_unfold (p : String) (child : MongocMatcherOp)
    (bson : List (String × BsonValue)) :
    _mongoc_matcher_op_match (.not_ p child) bson
      = Option.map (fun b => ! b) (_mongoc_matcher_op_match child bson) :=
  rfl

/-- Unfolding lemma: dispatch of an exists node (lines 992 to 993). -/
theorem match_exists_unfold (p : String) (e : Bool)
    (bson : List (String × BsonValue)) :
    _mongoc_matcher_op_match (.exists_ p e) bson
      = some (_mongoc_matcher_op_exists_match p e bson) :=
  rfl

/-- Unfolding lemma: dispatch of a type node (lines 994 to 995). -/
theorem match_type_unfold (p : String) (t : BsonType)
    (bson : List (String × BsonValue)) :
    _mongoc_matcher_op_match (.type p t) bson
      = some (_mongoc_matcher_op_type_match p t bson) :=
  rfl

/-- A value appended into the serialized output document: either the
stored operand replayed through bson_append_iter, a subdocument, an
array (a document keyed positionally), or the literal booleans and
int32 codes the serializer appends itself. -/
inductive BsonFragment where
  | iterValue (v : BsonValue)
  | doc (elems : List (String × BsonFragment))
  | array (elems : List (String × BsonFragment))
  | boolVal (b : Bool)
  | int32Val (n : Int)

/-- The wire code of a bson_type_t tag, as appended by the serializer
for a type node; the collapsed other tag is rendered as 0 (EOD), which
no type node built from a real query carries. -/
def bson_type_code : BsonType → Int
  | .double => 1
  | .utf8 => 2
  | .document => 3
  | .undefined => 6
  | .bool => 8
  | .null => 10
  | .int32 => 16
  | .int64 => 18
  | .other => 0

/-- The operator name chosen by the inner switch of
_mongoc_matcher_op_to_bson (lines 1045 to 1069).  The EQ opcode never
reaches that switch (it is serialized directly); its arm here mirrors
the uninitialized str of the unreachable default branch as the empty
string. -/
def compare_opcode_name : CompareOpcode → String
  | .GT => "$gt"
  | .GTE => "$gte"
  | .IN => "$in"
  | .LT => "$lt"
  | .LTE => "$lte"
  | .NE => "$ne"
  | .NIN => "$nin"
  | .EQ => ""

/-- The operator name for a logical node (lines 1077 to 1086). -/
def logical_opcode_name : LogicalOpcode → String
  | .OR => "$or"
  | .AND => "$and"
  | .NOR => "$nor"

/-- _mongoc_matcher_op_to_bson (lines 1023 to 1115), rendered as the
list of elements the function appends to its output document:
an eq node appends the operand under the path; the other compare nodes
append a subdocument with the operator name under the path; a logical
node appends an array keyed "0" and, when the right child is present,
"1", each entry a subdocument holding a child serialization; a not node
nests its child under the stored path; an exists node appends a bare
boolean fragment under the name of the operator, not under the path;
a type node appends the integer type code likewise. -/
def _mongoc_matcher_op_to_bson :
    MongocMatcherOp → List (String × BsonFragment)
  | .compare .EQ path v => [(path, .iterValue v)]
  | .compare opcode path v =>
      [(path, .doc [(compare_opcode_name opcode, .iterValue v)])]
  | .logical opcode left none =>
      [(logical_opcode_name opcode,
        .array [("0", .doc (_mongoc_matcher_op_to_bson left))])]
  | .logical opcode left (some r) =>
      [(logical_opcode_name opcode,
        .array [("0", .doc (_mongoc_matcher_op_to_bson left)),
                ("1", .doc (_mongoc_matcher_op_to_bson r))])]
  | .not_ path child =>
      [(path, .doc [("$not", .doc (_mongoc_matcher_op_to_bson child))])]
  | .exists_ _ e => [("$exists", .boolVal e)]
  | .type _ t => [("$type", .int32Val (bson_type_code t))]

/-- C1: the claim states that with operand 5 and field 5 the four
ordering opcodes evaluate to Gt false, Gte true, Lt false, Lte true.
Evaluating the code at that input gives the opposite on all four:
_GT_COMPARE expands to operand <= field so Gt realizes field >= operand,
_GTE_COMPARE to operand < field so Gte realizes field > operand,
_LT_COMPARE to operand >= field so Lt realizes field <= operand, and
_LTE_COMPARE to operand > field so Lte realizes field < operand; each
opcode got its sibling's strictness, contradicting the doc comments of
the four match functions. -/
theorem C1_ordering_polarity_at_equal_operand :
    _mongoc_matcher_op_match (.compare .GT "a" (.int32 5))
      [("a", .int32 5)] = some true ∧
    _mongoc_matcher_op_match (.compare .GTE "a" (.int32 5))
      [("a", .int32 5)] = some false ∧
    _mongoc_matcher_op_match (.compare .LT "a" (.int32 5))
      [("a", .int32 5)] = some true ∧
    _mongoc_matcher_op_match (.compare .LTE "a" (.int32 5))
      [("a", .int32 5)] = some false :=
  ⟨rfl, rfl, rfl, rfl⟩

/-- C2: the claim states that a document lacking the path makes Ne and
Nin evaluate to true.  Evaluating the code on the empty document shows
both give false: _mongoc_matcher_op_compare_match returns false when
bson_iter_init_find fails, before the opcode is ever consulted, so the
negation inside the ne and nin match functions is never reached,
contradicting the doc comment of _mongoc_matcher_op_ne_match. -/
theorem C2_absent_path_ne_nin_are_false :
    _mongoc_matcher_op_match (.compare .NE "a" (.int32 5)) []
      = some false ∧
    _mongoc_matcher_op_match (.compare .NIN "a" (.int32 5)) []
      = some false :=
  ⟨rfl, rfl⟩

/-- C3: the claim states that a logical node with an absent right child
evaluates to its left child's result.  Evaluating the code shows the
crash instead: when the left value does not short-circuit, the C
dispatches _mongoc_matcher_op_match(NULL, bson), which fails
BSON_ASSERT(op) (modelled as none), even though the builder and the
teardown both accept an absent right child.  The two short-circuited
shapes, which never touch the right child, are also evaluated: a false
left under And and a true left under Or return without crashing. -/
theorem C3_single_leg_logical_crashes :
    _mongoc_matcher_op_match (.logical .AND (.exists_ "a" true) none)
      [("a", .bool true)] = none ∧
    _mongoc_matcher_op_match (.logical .OR (.exists_ "a" true) none)
      [] = none ∧
    _mongoc_matcher_op_match (.logical .NOR (.exists_ "a" true) none)
      [] = none ∧
    _mongoc_matcher_op_match (.logical .AND (.exists_ "a" true) none)
      [] = some false ∧
    _mongoc_matcher_op_match (.logical .OR (.exists_ "a" true) none)
      [("a", .bool true)] = some true :=
  ⟨rfl, rfl, rfl, rfl, rfl⟩

/-- C10: equality across the Null and Undefined tags is asymmetric: a
Null operand matches an Undefined field through the explicit
_TYPE_CODE(NULL, UNDEFINED) arm, while an Undefined operand against a
Null field has no arm and falls to the default not-equal branch. -/
theorem C10_null_undefined_asymmetry :
    _mongoc_matcher_op_match (.compare .EQ "a" .null)
      [("a", .undefined)] = some true ∧
    _mongoc_matcher_op_match (.compare .EQ "a" .undefined)
      [("a", .null)] = some false ∧
    _mongoc_matcher_op_eq_match .null .undefined = true ∧
    _mongoc_matcher_op_eq_match .undefined .null = false :=
  ⟨rfl, rfl, rfl, rfl⟩

/-- C9: the serializer produces the per-variant shapes: a non-eq
compare node yields the operand under its operator name under the path,
an eq node yields the operand directly under the path, a logical node
yields an array keyed positionally "0" and "1" with one element when
the right child is absent, a not node nests its child under the path,
and an exists node yields the bare operator fragment not nested under
the path. -/
theorem C9_serializer_shapes :
    (∀ p v, _mongoc_matcher_op_to_bson (.compare .GT p v)
        = [(p, .doc [("$gt", .iterValue v)])]) ∧
    (∀ p v, _mongoc_matcher_op_to_bson (.compare .GTE p v)
        = [(p, .doc [("$gte", .iterValue v)])]) ∧
    (∀ p v, _mongoc_matcher_op_to_bson (.compare .LT p v)
        = [(p, .doc [("$lt", .iterValue v)])]) ∧
    (∀ p v, _mongoc_matcher_op_to_bson (.compare .LTE p v)
        = [(p, .doc [("$lte", .iterValue v)])]) ∧
    (∀ p v, _mongoc_matcher_op_to_bson (.compare .NE p v)
        = [(p, .doc [("$ne", .iterValue v)])]) ∧
    (∀ p v, _mongoc_matcher_op_to_bson (.compare .IN p v)
        = [(p, .doc [("$in", .iterValue v)])]) ∧
    (∀ p v, _mongoc_matcher_op_to_bson (.compare .NIN p v)
        = [(p, .doc [("$nin", .iterValue v)])]) ∧
    (∀ p v, _mongoc_matcher_op_to_bson (.compare .EQ p v)
        = [(p, .iterValue v)]) ∧
    (∀ op l r, _mongoc_matcher_op_to_bson (.logical op l (some r))
        = [(logical_opcode_name op,
            .array [("0", .doc (_mongoc_matcher_op_to_bson l)),
                    ("1", .doc (_mongoc_matcher_op_to_bson r))])]) ∧
    (∀ op l, _mongoc_matcher_op_to_bson (.logical op l none)
        = [(logical_opcode_name op,
            .array [("0", .doc (_mongoc_matcher_op_to_bson l))])]) ∧
    (∀ p c, _mongoc_matcher_op_to_bson (.not_ p c)
        = [(p, .doc [("$not", .doc (_mongoc_matcher_op_to_bson c))])]) ∧
    (∀ p e, _mongoc_matcher_op_to_bson (.exists_ p e)
        = [("$exists", .boolVal e)]) :=
  ⟨fun _ _ => rfl, fun _ _ => rfl, fun _ _ => rfl, fun _ _ => rfl,
   fun _ _ => rfl, fun _ _ => rfl, fun _ _ => rfl, fun _ _ => rfl,
   fun _ _ _ => rfl, fun _ _ => rfl, fun _ _ => rfl, fun _ _ => rfl⟩

/-- C4 counterexample: the claim states that a Nin compare node reports
match on every document; on a document lacking the path the
pre-dispatch lookup of _mongoc_matcher_op_compare_match reports false
instead. -/
theorem C4_nin_absent_path_counterexample :
    _mongoc_matcher_op_match (.compare .NIN "b" (.utf8 "x")) []
      = some false :=
  rfl

/-- C4 amended: an In compare node reports no-match on every document;
a Nin compare node reports match on every document containing the path
at top level, and no-match when the path is absent; in all cases the
evaluator returns a boolean verdict and never crashes (the In stub logs
a diagnostic and degrades to false rather than aborting). -/
theorem C4_in_nin_stub (p : String) (v : BsonValue)
    (d : List (String × BsonValue)) :
    _mongoc_matcher_op_match (.compare .IN p v) d = some false ∧
    ((bson_iter_init_find d p).isSome = true →
      _mongoc_matcher_op_match (.compare .NIN p v) d = some true) ∧
    (_mongoc_matcher_op_match (.compare .IN p v) d).isSome = true ∧
    (_mongoc_matcher_op_match (.compare .NIN p v) d).isSome = true := by
  refine ⟨?_, ?_, ?_, ?_⟩ <;>
    cases h : bson_iter_init_find d p <;>
      simp [match_compare_unfold, _mongoc_matcher_op_compare_match, h,
            _mongoc_matcher_op_in_match, _mongoc_matcher_op_nin_match]

/-- C4 witness: the amended theorem applied at a document containing
the path. -/
theorem C4_in_nin_stub_witness :
    (bson_iter_init_find [("a", BsonValue.utf8 "z")] "a").isSome = true ∧
    _mongoc_matcher_op_match (.compare .NIN "a" (.int32 1))
      [("a", .utf8 "z")] = some true :=
  ⟨rfl, (C4_in_nin_stub "a" (.int32 1) [("a", .utf8 "z")]).2.1 rfl⟩

/-- The numeric reading of an operand value for the coercion matrix:
only double, int32 and int64 operands have numeric arms in the eq
switch (the spec side of _TYPE_CODE); a bool operand has none. -/
def numericOperand : BsonValue → Option ℚ
  | .double q => some q
  | .int32 n => some (n : ℚ)
  | .int64 n => some (n : ℚ)
  | _ => none

/-- The numeric reading of a document field value for the coercion
matrix: double, bool, int32 and int64 fields all appear on the right of
the numeric arms, a bool field promoting to 0 or 1. -/
def numericField : BsonValue → Option ℚ
  | .double q => some q
  | .bool b => some (if b then 1 else 0)
  | .int32 n => some (n : ℚ)
  | .int64 n => some (n : ℚ)
  | _ => none

/-- The equality matrix as the amended claim words it: numeric pairs
whose operand is double, int32 or int64 and whose field is double,
bool, int32 or int64 compare by exact numeric equality after promotion;
utf8 against utf8 compares byte length then byte content, which is
string equality; a null operand equals a null or undefined field; every
other pairing, in particular every pairing with a bool operand, is
not-equal. -/
def eq_matrix_amended (l r : BsonValue) : Bool :=
  match numericOperand l, numericField r with
  | some a, some b => decide (a = b)
  | _, _ =>
      match l, r with
      | .utf8 s, .utf8 t => decide (s = t)
      | .null, .null => true
      | .null, .undefined => true
      | _, _ => false

/-- C5 counterexample: the claim counts Bool among the numeric types of
the coercion matrix, under which a bool operand true would equal a bool
field true (both promoting to 1); the eq switch has no arm for a bool
operand, so the code reports not-equal. -/
theorem C5_bool_operand_counterexample :
    _mongoc_matcher_op_match (.compare .EQ "a" (.bool true))
      [("a", .bool true)] = some false :=
  rfl

/-- C5 amended: on a document containing the path at top level, an eq
compare node evaluates to the amended coercion matrix: numeric pairs
with operand type double, int32 or int64 and field type double, bool,
int32 or int64 compare numerically after promotion, a bool operand
falls to the default not-equal branch, utf8 against utf8 is byte
equality, a null operand equals null and undefined fields, and every
other pairing is not-equal; the four literal examples of the claim
hold as stated. -/
theorem C5_eq_coercion_matrix :
    (∀ (p : String) (v : BsonValue) (d : List (String × BsonValue))
        (w : BsonValue), bson_iter_init_find d p = some w →
      _mongoc_matcher_op_match (.compare .EQ p v) d
        = some (eq_matrix_amended v w)) ∧
    _mongoc_matcher_op_match (.compare .EQ "a" (.int32 5))
      [("a", .double 5)] = some true ∧
    _mongoc_matcher_op_match (.compare .EQ "a" (.int32 5))
      [("a", .utf8 "5")] = some false ∧
    _mongoc_matcher_op_match (.compare .EQ "a" .null)
      [("a", .undefined)] = some true ∧
    _mongoc_matcher_op_match (.compare .EQ "a" (.int64 5))
      [("a", .bool true)] = some false := by
  refine ⟨?_, rfl, rfl, rfl, rfl⟩
  intro p v d w h
  rw [match_compare_unfold]
  have hm : _mongoc_matcher_op_eq_match v w = eq_matrix_amended v w := by
    cases v <;> cases w <;>
      simp only [_mongoc_matcher_op_eq_match, eq_matrix_amended,
        numericOperand, numericField] <;>
      first
        | rfl
        | (simp [decide_eq_decide, Int.cast_inj]; done)
        | (rename_i a b
           cases b <;>
             simp [decide_eq_decide, Int.cast_eq_one, Int.cast_eq_zero])
  simp [_mongoc_matcher_op_compare_match, h, hm]

/-- C5 witness: the amended matrix theorem applied at a concrete
operand, field and document. -/
theorem C5_eq_coercion_matrix_witness :
    bson_iter_init_find [("a", BsonValue.int64 7)] "a"
      = some (BsonValue.int64 7) ∧
    _mongoc_matcher_op_match (.compare .EQ "a" (.int32 7))
      [("a", .int64 7)]
      = some (eq_matrix_amended (.int32 7) (.int64 7)) :=
  ⟨rfl, (C5_eq_coercion_matrix).1 "a" (.int32 7) [("a", .int64 7)]
      (.int64 7) rfl⟩

/-- C6 counterexample: the claim quantifies over every document
containing a value at the dotted nested path, but a document may also
carry a literal top-level key equal to the whole dotted string, and the
exact full-key lookup of bson_iter_init_find then finds it: here the
nested path a.b resolves to int32 5, yet the eq compare node against
operand 7 finds the literal top-level "a.b" element int32 7 and
evaluates to true rather than to the absent-field false. -/
theorem C6_literal_dotted_key_counterexample :
    bson_iter_find_descendant
      [("a", .document [("b", .int32 5)]), ("a.b", .int32 7)] "a.b"
      = some (.int32 5) ∧
    _mongoc_matcher_op_match (.compare .EQ "a.b" (.int32 7))
      [("a", .document [("b", .int32 5)]), ("a.b", .int32 7)]
      = some true :=
  ⟨rfl, rfl⟩

/-- C6 amended: for every compare node whose path is dotted, and every
document that resolves the dotted path to a nested descendant while
holding no top-level key literally equal to the whole dotted string,
evaluation yields the absent-field result false, because the compare
lookup searches only top-level keys; an exists node and a type node
with the same path resolve the descendant and can find it. -/
theorem C6_compare_lookup_is_top_level (opcode : CompareOpcode)
    (p : String) (v : BsonValue) (d : List (String × BsonValue))
    (w : BsonValue) :
    p.data.contains '.' = true →
    bson_iter_init_find d p = none →
    bson_iter_find_descendant d p = some w →
    _mongoc_matcher_op_match (.compare opcode p v) d = some false ∧
    _mongoc_matcher_op_match (.exists_ p true) d = some true ∧
    _mongoc_matcher_op_match (.type p (bson_iter_type w)) d = some true := by
  intro _ htop hdesc
  refine ⟨?_, ?_, ?_⟩
  · rw [match_compare_unfold]
    simp [_mongoc_matcher_op_compare_match, htop]
  · rw [match_exists_unfold]
    simp [_mongoc_matcher_op_exists_match, hdesc]
  · rw [match_type_unfold]
    simp [_mongoc_matcher_op_type_match, hdesc]

/-- C6 witness: the amended theorem applied at a document whose only
top-level key is a, holding the nested b. -/
theorem C6_compare_lookup_witness :
    ("a.b" : String).data.contains '.' = true ∧
    bson_iter_init_find [("a", BsonValue.document [("b", .utf8 "x")])] "a.b"
      = none ∧
    bson_iter_find_descendant
      [("a", BsonValue.document [("b", .utf8 "x")])] "a.b"
      = some (.utf8 "x") ∧
    _mongoc_matcher_op_match (.compare .GT "a.b" (.int32 1))
      [("a", .document [("b", .utf8 "x")])] = some false ∧
    _mongoc_matcher_op_match (.exists_ "a.b" true)
      [("a", .document [("b", .utf8 "x")])] = some true ∧
    _mongoc_matcher_op_match (.type "a.b" (bson_iter_type (.utf8 "x")))
      [("a", .document [("b", .utf8 "x")])] = some true := by
  refine ⟨rfl, rfl, rfl, ?_⟩
  exact (C6_compare_lookup_is_top_level .GT "a.b" (.int32 1)
    [("a", .document [("b", .utf8 "x")])] (.utf8 "x") rfl rfl rfl)

/-- C7: a type node on a document lacking the path evaluates to false
unconditionally, and on a document resolving the path to a value it
evaluates to true exactly when the type tag of that value equals the
expected tag. -/
theorem C7_type_match (p : String) (t : BsonType)
    (d : List (String × BsonValue)) :
    (bson_iter_find_descendant d p = none →
      _mongoc_matcher_op_match (.type p t) d = some false) ∧
    (∀ w, bson_iter_find_descendant d p = some w →
      _mongoc_matcher_op_match (.type p t) d
        = some (decide (bson_iter_type w = t))) := by
  constructor
  · intro h
    rw [match_type_unfold]
    simp [_mongoc_matcher_op_type_match, h]
  · intro w h
    rw [match_type_unfold]
    simp [_mongoc_matcher_op_type_match, h]

/-- C7 witness: the type theorem applied on both sides, at a document
lacking the path and at a document holding an int32 at the path. -/
theorem C7_type_match_witness :
    _mongoc_matcher_op_match (.type "x" .int32) [] = some false ∧
    _mongoc_matcher_op_match (.type "a" .int32) [("a", .int32 3)]
      = some (decide (bson_iter_type (.int32 3) = .int32)) :=
  ⟨(C7_type_match "x" .int32 []).1 rfl,
   (C7_type_match "a" .int32 [("a", .int32 3)]).2 (.int32 3) rfl⟩

/-- C8: an exists node evaluates to found compared with the expected
flag, where found says whether the dotted path resolves; the expected
false node is the exact complement of the expected true node on every
document; and a not node over exists true evaluates to true on a
document missing the path. -/
theorem C8_exists_match (p p2 : String) (e : Bool)
    (d : List (String × BsonValue)) :
    _mongoc_matcher_op_match (.exists_ p e) d
      = some ((bson_iter_find_descendant d p).isSome == e) ∧
    _mongoc_matcher_op_match (.exists_ p false) d
      = Option.map (fun b => ! b)
          (_mongoc_matcher_op_match (.exists_ p true) d) ∧
    (bson_iter_find_descendant d p = none →
      _mongoc_matcher_op_match (.not_ p2 (.exists_ p true)) d
        = some true) := by
  refine ⟨rfl, ?_, ?_⟩
  · rw [match_exists_unfold, match_exists_unfold]
    cases h : (bson_iter_find_descendant d p).isSome <;>
      simp [_mongoc_matcher_op_exists_match, h]
  · intro h
    rw [match_not_unfold, match_exists_unfold]
    simp [_mongoc_matcher_op_exists_match, h]

/-- C8 witness: the exists theorem applied at a document missing the
path. -/
theorem C8_exists_match_witness :
    _mongoc_matcher_op_match (.exists_ "q" true) []
      = some ((bson_iter_find_descendant [] "q").isSome == true) ∧
    _mongoc_matcher_op_match (.not_ "q" (.exists_ "q" true)) []
      = some true :=
  ⟨(C8_exists_match "q" "q" true []).1,
   (C8_exists_match "q" "q" true []).2.2 rfl⟩
